import Mathlib

/-!
# The freedreno blitter: `freedreno_blitter.c`

A shallow embedding of `src/gallium/drivers/freedreno/freedreno_blitter.c`.

* Resources, boxes, view templates and blit requests are records holding the
  fields the file reads or writes.
* `unsigned` values are naturals, `int` values are integers; the conversions
  between them that C performs silently at a call or an assignment are the
  explicit functions `to_unsigned` and `to_int` (32 bits, two's complement).
* The file talks to the rest of the driver through calls whose bodies live
  elsewhere (the hardware blit hook, u_blitter, the stage bracket, the
  software copy).  A run of a function is the list of those calls, in order,
  with the arguments they received; what a collaborator answers is a field of
  the context.
* `assert` is the checking one of a debug build: a failed assertion ends the
  run at that point.
* The declarations of the gallium structs and enumerations are not part of
  the file; a field holds the value the file assigns to it, at the width of
  `unsigned` or `int`.
-/

namespace FdBlitter

/-! ## Types of the gallium interface -/

/-- Values of `enum pipe_texture_target`. -/
inductive pipe_texture_target
  | PIPE_BUFFER
  | PIPE_TEXTURE_1D
  | PIPE_TEXTURE_2D
  | PIPE_TEXTURE_3D
  | PIPE_TEXTURE_CUBE
  | PIPE_TEXTURE_RECT
  | PIPE_TEXTURE_1D_ARRAY
  | PIPE_TEXTURE_2D_ARRAY
  | PIPE_TEXTURE_CUBE_ARRAY
  deriving DecidableEq, Repr

open pipe_texture_target

/-- Values of `enum pipe_format`, by their number; the file names only
`PIPE_FORMAT_R8_UINT`, whose number is a field of `Gallium`. -/
abbrev pipe_format := Nat

/-- Texture filters (`PIPE_TEX_FILTER_x`); `PIPE_TEX_FILTER_NEAREST` is the
zero of the enumeration. -/
inductive pipe_tex_filter
  | PIPE_TEX_FILTER_NEAREST
  | PIPE_TEX_FILTER_LINEAR
  deriving DecidableEq, Repr

open pipe_tex_filter

/-- Channel selectors of a sampler view (`PIPE_SWIZZLE_x`). -/
inductive pipe_swizzle
  | PIPE_SWIZZLE_X
  | PIPE_SWIZZLE_Y
  | PIPE_SWIZZLE_Z
  | PIPE_SWIZZLE_W
  | PIPE_SWIZZLE_0
  | PIPE_SWIZZLE_1
  | PIPE_SWIZZLE_NONE
  deriving DecidableEq, Repr

open pipe_swizzle

/-- The capability the file queries with `get_param`. -/
inductive pipe_cap
  | PIPE_CAP_SAMPLER_VIEW_TARGET
  deriving DecidableEq, Repr

open pipe_cap

/-- Stages of the freedreno context (`enum fd_render_stage`). -/
inductive fd_render_stage
  | FD_STAGE_NULL
  | FD_STAGE_DRAW
  | FD_STAGE_CLEAR
  | FD_STAGE_MEM2GMEM
  | FD_STAGE_GMEM2MEM
  | FD_STAGE_BLIT
  | FD_STAGE_ALL
  deriving DecidableEq, Repr

open fd_render_stage

/-- A screen, as far as the file uses it: the answer of `get_param`. -/
structure pipe_screen where
  get_param : pipe_cap → Int

/-- The fields of `struct pipe_resource` the file reads. -/
structure pipe_resource where
  screen : pipe_screen
  width0 : Nat
  height0 : Nat
  depth0 : Nat
  array_size : Nat
  format : pipe_format
  target : pipe_texture_target

/-- A box, `struct pipe_box`: signed offset and signed size. -/
structure pipe_box where
  x : Int
  y : Int
  z : Int
  width : Int
  height : Int
  depth : Int
  deriving DecidableEq, Repr

/-- A scissor rectangle, `struct pipe_scissor_state`. -/
structure pipe_scissor_state where
  minx : Nat
  miny : Nat
  maxx : Nat
  maxy : Nat
  deriving DecidableEq, Repr

/-- A surface (render target view), `struct pipe_surface`, with its
`u.tex` member; the fields not listed stay at the zero of `memset`. -/
structure pipe_surface where
  format : pipe_format
  level : Nat
  first_layer : Nat
  last_layer : Nat
  deriving DecidableEq, Repr

/-- A sampler view, `struct pipe_sampler_view`, with its `u.tex` member; the
fields not listed stay at the zero of `memset`. -/
structure pipe_sampler_view where
  target : pipe_texture_target
  format : pipe_format
  first_level : Nat
  last_level : Nat
  first_layer : Nat
  last_layer : Nat
  swizzle_r : pipe_swizzle
  swizzle_g : pipe_swizzle
  swizzle_b : pipe_swizzle
  swizzle_a : pipe_swizzle
  deriving DecidableEq, Repr

/-- One side (`dst` or `src`) of a blit request. -/
structure pipe_blit_side where
  resource : pipe_resource
  level : Nat
  box : pipe_box
  format : pipe_format

/-- A blit request, `struct pipe_blit_info`. -/
structure pipe_blit_info where
  dst : pipe_blit_side
  src : pipe_blit_side
  mask : Nat
  filter : pipe_tex_filter
  scissor_enable : Bool
  scissor : pipe_scissor_state
  render_condition_enable : Bool
  alpha_blend : Bool

/-- What the u_blitter of a context answers to
`util_blitter_is_copy_supported`. -/
structure blitter_context where
  is_copy_supported : pipe_resource → pipe_resource → Bool

/-- The freedreno context (`struct fd_context`, whose `base` is the
`pipe_context`): the optional hardware blit hook, the u_blitter and the two
view constructors of the pipe. -/
structure fd_context where
  blit : Option (pipe_blit_info → Bool)
  blitter : blitter_context
  create_surface : pipe_resource → pipe_surface → pipe_surface
  create_sampler_view : pipe_resource → pipe_sampler_view → pipe_sampler_view

/-- The declarations of the gallium headers that the file uses and that are
not part of it: the number of `PIPE_FORMAT_R8_UINT`, the format helpers of
`u_format.h`, and the extent `(W, H, D)` of a mip level of a resource. -/
structure Gallium where
  PIPE_FORMAT_R8_UINT : pipe_format
  util_format_linear : pipe_format → pipe_format
  util_format_get_mask : pipe_format → Nat
  level_extent : pipe_resource → Nat → Nat × Nat × Nat

/-! ## Machine integers -/

/-- Conversion of an `int` to `unsigned` (modulo 2^32). -/
def to_unsigned (i : Int) : Nat := (i % 4294967296).toNat

/-- Conversion of an `unsigned` to `int` (two's complement, 32 bits). -/
def to_int (n : Nat) : Int :=
  if n % 4294967296 < 2147483648 then ((n % 4294967296 : Nat) : Int)
  else ((n % 4294967296 : Nat) : Int) - 4294967296

/-- The integer is a value of the C type `int` (32 bits). -/
def is_int (i : Int) : Prop := -2147483648 ≤ i ∧ i < 2147483648

/-- Every field of the box is a value of the C type `int`. -/
def pipe_box.fits_int (b : pipe_box) : Prop :=
  is_int b.x ∧ is_int b.y ∧ is_int b.z ∧ is_int b.width ∧ is_int b.height ∧ is_int b.depth

/-! ## Helpers of the gallium utility headers -/

/-- Modelled from the spec: `u_minify` of `u_math.h` is not part of the file;
it is the mip-adjusted size of a dimension, `max(1, value >> levels)`.  (C
leaves a shift by 32 or more undefined; here it yields 0, hence the size 1.) -/
def u_minify (value levels : Nat) : Nat := max 1 (value >>> levels)

/-- Modelled from the spec: `util_texrange_covers_whole_level` of
`u_inlines.h` is not part of the file; a range covers the whole level when it
is exactly `(0,0,0)-(W,H,D)` for the extent `(W, H, D)` of that level. -/
def util_texrange_covers_whole_level (level_extent : pipe_resource → Nat → Nat × Nat × Nat)
    (tex : pipe_resource) (level x y z width height depth : Nat) : Bool :=
  x == 0 && y == 0 && z == 0 &&
  width == (level_extent tex level).1 &&
  height == (level_extent tex level).2.1 &&
  depth == (level_extent tex level).2.2

/-- The query `util_blitter_is_copy_supported(blitter, dst, src)`. -/
def util_blitter_is_copy_supported (blitter : blitter_context)
    (dst src : pipe_resource) : Bool :=
  blitter.is_copy_supported dst src

/-! ## Calls to collaborators -/

/-- A call that leaves the file, with its arguments. -/
inductive Call
  | blit (request : pipe_blit_info)
  | util_blitter_is_copy_supported (dst src : pipe_resource)
  | fd_blitter_pipe_begin (render_cond discard : Bool) (stage : fd_render_stage)
  | fd_blitter_pipe_end
  | util_blitter_copy_texture (dst : pipe_resource) (dst_level dstx dsty dstz : Nat)
      (src : pipe_resource) (src_level : Nat) (src_box : pipe_box)
  | util_resource_copy_region (dst : pipe_resource) (dst_level dstx dsty dstz : Nat)
      (src : pipe_resource) (src_level : Nat) (src_box : pipe_box)
  | create_surface (dst : pipe_resource) (templ : pipe_surface)
  | create_sampler_view (src : pipe_resource) (templ : pipe_sampler_view)
  | util_blitter_blit_generic (dst_view : pipe_surface) (dst_box : pipe_box)
      (src_view : pipe_sampler_view) (src_box : pipe_box) (src_width0 src_height0 : Nat)
      (mask : Nat) (filter : pipe_tex_filter) (scissor : Option pipe_scissor_state)
      (alpha_blend : Bool)
  | pipe_surface_reference (view : pipe_surface)
  | pipe_sampler_view_reference (view : pipe_sampler_view)

/-- The two assertions of `fd_resource_copy_region`. -/
inductive Assertion
  | dst_box_width_nonneg
  | dst_box_height_nonneg
  deriving DecidableEq, Repr

/-- A run: the calls made, in order, and the assertion that stopped it, if
one did. -/
structure Run where
  calls : List Call
  failed : Option Assertion

/-! ## The functions of the file -/

/-- `default_dst_texture`: the template of the destination surface. -/
def default_dst_texture (E : Gallium) (dst : pipe_resource) (dstlevel dstz : Nat) :
    pipe_surface :=
  { format := if dst.target = PIPE_BUFFER then E.PIPE_FORMAT_R8_UINT
              else E.util_format_linear dst.format
    level := dstlevel
    first_layer := dstz
    last_layer := dstz }

/-- `default_src_texture`: the template of the source sampler view. -/
def default_src_texture (E : Gallium) (src : pipe_resource) (srclevel : Nat) :
    pipe_sampler_view :=
  let cube_as_2darray : Bool := decide (src.screen.get_param PIPE_CAP_SAMPLER_VIEW_TARGET ≠ 0)
  let target : pipe_texture_target :=
    if cube_as_2darray && (src.target = PIPE_TEXTURE_CUBE || src.target = PIPE_TEXTURE_CUBE_ARRAY)
    then PIPE_TEXTURE_2D_ARRAY
    else src.target
  { target := if src.target = PIPE_BUFFER then PIPE_TEXTURE_1D else target
    format := if src.target = PIPE_BUFFER then E.PIPE_FORMAT_R8_UINT
              else E.util_format_linear src.format
    first_level := srclevel
    last_level := srclevel
    first_layer := 0
    last_layer :=
      if src.target = PIPE_TEXTURE_3D
      then to_unsigned ((u_minify src.depth0 srclevel : Int) - 1)
      else to_unsigned ((src.array_size : Int) - 1)
    swizzle_r := PIPE_SWIZZLE_X
    swizzle_g := PIPE_SWIZZLE_Y
    swizzle_b := PIPE_SWIZZLE_Z
    swizzle_a := PIPE_SWIZZLE_W }

/-- `fd_blitter_blit`: the generic blit through u_blitter; the result is
the returned flag and the calls made. -/
def fd_blitter_blit (E : Gallium) (ctx : fd_context) (request : pipe_blit_info) :
    Bool × List Call :=
  let dst := request.dst.resource
  let src := request.src.resource
  let discard : Bool :=
    if !request.scissor_enable && !request.alpha_blend then
      util_texrange_covers_whole_level E.level_extent request.dst.resource
        request.dst.level (to_unsigned request.dst.box.x) (to_unsigned request.dst.box.y)
        (to_unsigned request.dst.box.z) (to_unsigned request.dst.box.width)
        (to_unsigned request.dst.box.height) (to_unsigned request.dst.box.depth)
    else false
  let dst_templ0 := default_dst_texture E dst request.dst.level (to_unsigned request.dst.box.z)
  let dst_templ := { dst_templ0 with format := request.dst.format }
  let dst_view := ctx.create_surface dst dst_templ
  let src_templ0 := default_src_texture E src request.src.level
  let src_templ := { src_templ0 with format := request.src.format }
  let src_view := ctx.create_sampler_view src src_templ
  (true,
   [ Call.fd_blitter_pipe_begin request.render_condition_enable discard FD_STAGE_BLIT,
     Call.create_surface dst dst_templ,
     Call.create_sampler_view src src_templ,
     Call.util_blitter_blit_generic dst_view request.dst.box src_view request.src.box
       src.width0 src.height0 request.mask request.filter
       (if request.scissor_enable then some request.scissor else none)
       request.alpha_blend,
     Call.pipe_surface_reference dst_view,
     Call.pipe_sampler_view_reference src_view,
     Call.fd_blitter_pipe_end ])

/-- `fd_blitter_pipe_copy_region`: the copy on the 3d pipe; the result is
the returned flag and the calls made. -/
def fd_blitter_pipe_copy_region (ctx : fd_context) (dst : pipe_resource)
    (dst_level dstx dsty dstz : Nat) (src : pipe_resource) (src_level : Nat)
    (src_box : pipe_box) : Bool × List Call :=
  if dst.target = PIPE_BUFFER ∨ src.target = PIPE_BUFFER then
    (false, [])
  else if !util_blitter_is_copy_supported ctx.blitter dst src then
    (false, [Call.util_blitter_is_copy_supported dst src])
  else
    (true,
     [ Call.util_blitter_is_copy_supported dst src,
       Call.fd_blitter_pipe_begin false false FD_STAGE_BLIT,
       Call.util_blitter_copy_texture dst dst_level dstx dsty dstz src src_level src_box,
       Call.fd_blitter_pipe_end ])

/-- The request that `fd_resource_copy_region` builds in its local `info`
when a hardware blit hook is registered (the `memset` and the assignments
that follow it). -/
def fd_resource_copy_region_info (E : Gallium) (dst : pipe_resource)
    (dst_level dstx dsty dstz : Nat) (src : pipe_resource) (src_level : Nat)
    (src_box : pipe_box) : pipe_blit_info :=
  { dst := { resource := dst
             level := dst_level
             box := { x := to_int dstx, y := to_int dsty, z := to_int dstz
                      width := src_box.width, height := src_box.height, depth := 1 }
             format := dst.format }
    src := { resource := src
             level := src_level
             box := src_box
             format := src.format }
    mask := E.util_format_get_mask src.format
    filter := PIPE_TEX_FILTER_NEAREST
    scissor_enable := false
    scissor := { minx := 0, miny := 0, maxx := 0, maxy := 0 }
    render_condition_enable := false
    alpha_blend := false }

/-- The part of `fd_resource_copy_region` after the hardware hook: the 3d
pipe, then the software copy. -/
def fd_resource_copy_region_fallback (ctx : fd_context) (dst : pipe_resource)
    (dst_level dstx dsty dstz : Nat) (src : pipe_resource) (src_level : Nat)
    (src_box : pipe_box) : List Call :=
  let r := fd_blitter_pipe_copy_region ctx dst dst_level dstx dsty dstz src src_level src_box
  if r.1 then r.2
  else r.2 ++ [Call.util_resource_copy_region dst dst_level dstx dsty dstz src src_level src_box]

/-- `fd_resource_copy_region`: hardware hook, then 3d pipe, then software. -/
def fd_resource_copy_region (E : Gallium) (ctx : fd_context) (dst : pipe_resource)
    (dst_level dstx dsty dstz : Nat) (src : pipe_resource) (src_level : Nat)
    (src_box : pipe_box) : Run :=
  match ctx.blit with
  | some hook =>
    let request := fd_resource_copy_region_info E dst dst_level dstx dsty dstz src src_level src_box
    if ¬ (request.dst.box.width ≥ 0) then
      { calls := [], failed := some Assertion.dst_box_width_nonneg }
    else if ¬ (request.dst.box.height ≥ 0) then
      { calls := [], failed := some Assertion.dst_box_height_nonneg }
    else if hook request then
      { calls := [Call.blit request], failed := none }
    else
      { calls := Call.blit request ::
          fd_resource_copy_region_fallback ctx dst dst_level dstx dsty dstz src src_level src_box
        failed := none }
  | none =>
    { calls := fd_resource_copy_region_fallback ctx dst dst_level dstx dsty dstz src src_level src_box
      failed := none }

/-! ## Reading a run -/

/-- The requests handed to the hardware blit hook, in order. -/
def hook_requests (calls : List Call) : List pipe_blit_info :=
  calls.filterMap fun c =>
    match c with
    | Call.blit request => some request
    | _ => none

/-- The flags and stage of each `fd_blitter_pipe_begin`, in order. -/
def stage_begins (calls : List Call) : List (Bool × Bool × fd_render_stage) :=
  calls.filterMap fun c =>
    match c with
    | Call.fd_blitter_pipe_begin render_cond discard stage => some (render_cond, discard, stage)
    | _ => none

/-- The resource and template of each `create_surface`, in order. -/
def surface_templates (calls : List Call) : List (pipe_resource × pipe_surface) :=
  calls.filterMap fun c =>
    match c with
    | Call.create_surface dst templ => some (dst, templ)
    | _ => none

/-- The resource and template of each `create_sampler_view`, in order. -/
def sampler_view_templates (calls : List Call) : List (pipe_resource × pipe_sampler_view) :=
  calls.filterMap fun c =>
    match c with
    | Call.create_sampler_view src templ => some (src, templ)
    | _ => none

/-- A sample of the header declarations: format 1 is B8G8R8A8_UNORM, 2 is
B8G8R8A8_SRGB (whose linear format is 1), 3 is R8_UINT, 4 is R8_UNORM; format
0 is PIPE_FORMAT_NONE.  Every colour format has the mask PIPE_MASK_RGBA = 15.
The extent of a level is the minified width and height, and the minified
depth of a 3D texture or the array size of the others. -/
def sample_gallium : Gallium :=
  { PIPE_FORMAT_R8_UINT := 3
    util_format_linear := fun f => if f = 2 then 1 else f
    util_format_get_mask := fun _ => 15
    level_extent := fun tex level =>
      (u_minify tex.width0 level, u_minify tex.height0 level,
       if tex.target = PIPE_TEXTURE_3D then u_minify tex.depth0 level else tex.array_size) }

/-- A screen that answers 1 to PIPE_CAP_SAMPLER_VIEW_TARGET. -/
def sample_screen : pipe_screen := { get_param := fun _ => 1 }

/-- A 128x128 2D texture, B8G8R8A8_UNORM. -/
def tex128 : pipe_resource :=
  { screen := sample_screen, width0 := 128, height0 := 128, depth0 := 1, array_size := 1
    format := 1, target := PIPE_TEXTURE_2D }

/-- A 64x64 2D texture, B8G8R8A8_UNORM. -/
def tex64 : pipe_resource :=
  { screen := sample_screen, width0 := 64, height0 := 64, depth0 := 1, array_size := 1
    format := 1, target := PIPE_TEXTURE_2D }

/-- A 64x64 2D texture, B8G8R8A8_SRGB. -/
def tex64_srgb : pipe_resource :=
  { screen := sample_screen, width0 := 64, height0 := 64, depth0 := 1, array_size := 1
    format := 2, target := PIPE_TEXTURE_2D }

/-- A 16x16x16 3D texture. -/
def tex3d : pipe_resource :=
  { screen := sample_screen, width0 := 16, height0 := 16, depth0 := 16, array_size := 1
    format := 1, target := PIPE_TEXTURE_3D }

/-- A linear buffer of 4096 bytes, R8_UNORM. -/
def buf4096 : pipe_resource :=
  { screen := sample_screen, width0 := 4096, height0 := 1, depth0 := 1, array_size := 1
    format := 4, target := PIPE_BUFFER }

/-- A linear buffer of 4096 bytes whose array size is 2. -/
def buf4096_two : pipe_resource :=
  { screen := sample_screen, width0 := 4096, height0 := 1, depth0 := 1, array_size := 2
    format := 4, target := PIPE_BUFFER }

/-- The box (0,0,0)-(64,64,1). -/
def box64 : pipe_box := { x := 0, y := 0, z := 0, width := 64, height := 64, depth := 1 }

/-- The box (0,0,0)-(4096,1,1). -/
def box4096 : pipe_box := { x := 0, y := 0, z := 0, width := 4096, height := 1, depth := 1 }

/-- A u_blitter that supports every copy. -/
def sample_blitter : blitter_context := { is_copy_supported := fun _ _ => true }

/-- A context without hardware blit hook. -/
def ctx_no_hook : fd_context :=
  { blit := none, blitter := sample_blitter
    create_surface := fun _ t => t, create_sampler_view := fun _ t => t }

/-- A context whose hardware blit hook accepts every request. -/
def ctx_hook_accepts : fd_context :=
  { blit := some fun _ => true, blitter := sample_blitter
    create_surface := fun _ t => t, create_sampler_view := fun _ t => t }

/-- A context whose hardware blit hook declines every request. -/
def ctx_hook_declines : fd_context :=
  { blit := some fun _ => false, blitter := sample_blitter
    create_surface := fun _ t => t, create_sampler_view := fun _ t => t }

/-- A blit request over the boxes `dst_box` and `src_box` at level 0, with the
formats `dst_format` and `src_format`, nearest filter, no scissor, no blend. -/
def sample_request (dst : pipe_resource) (dst_box : pipe_box) (dst_format : pipe_format)
    (src : pipe_resource) (src_box : pipe_box) (src_format : pipe_format) : pipe_blit_info :=
  { dst := { resource := dst, level := 0, box := dst_box, format := dst_format }
    src := { resource := src, level := 0, box := src_box, format := src_format }
    mask := 15
    filter := PIPE_TEX_FILTER_NEAREST
    scissor_enable := false
    scissor := { minx := 0, miny := 0, maxx := 0, maxy := 0 }
    render_condition_enable := false
    alpha_blend := false }


/-! ## Machine integers: facts -/

/-- An unsigned value below 2^31 keeps its value as an `int`. -/
theorem to_int_of_lt (n : Nat) (h : n < 2147483648) : to_int n = (n : Int) := by
  unfold to_int
  have h1 : n % 4294967296 = n := Nat.mod_eq_of_lt (by omega)
  rw [h1, if_pos h]

/-- A non-negative `int` keeps its value as an `unsigned`. -/
theorem to_unsigned_of_nonneg (i : Int) (h0 : 0 ≤ i) (h1 : i < 4294967296) :
    (to_unsigned i : Int) = i := by
  unfold to_unsigned
  rw [Int.emod_eq_of_lt h0 h1]
  exact Int.toNat_of_nonneg h0

/-- Only the `int` 0 converts to the `unsigned` 0. -/
theorem to_unsigned_eq_zero_iff (i : Int) (h0 : -2147483648 ≤ i) (h1 : i < 2147483648) :
    to_unsigned i = 0 ↔ i = 0 := by
  unfold to_unsigned
  constructor
  · intro h
    have h2 : i % 4294967296 ≤ 0 := Int.toNat_eq_zero.mp h
    omega
  · intro h
    subst h
    rfl

/-- An `int` converts to an unsigned value below 2^31 only if it is that
value. -/
theorem to_unsigned_eq_iff (i : Int) (n : Nat) (hi : is_int i) (hn : n < 2147483648) :
    to_unsigned i = n ↔ i = (n : Int) := by
  obtain ⟨h0, h1⟩ := hi
  unfold to_unsigned
  constructor
  · intro h
    have h2 : ((i % 4294967296).toNat : Int) = (n : Int) := by rw [h]
    rw [Int.toNat_of_nonneg (Int.emod_nonneg _ (by decide))] at h2
    omega
  · intro h
    subst h
    rw [Int.emod_eq_of_lt (by omega) (by omega)]
    exact Int.toNat_natCast n

/-! ## The copy dispatcher -/

/-- With a hook and a source box of non-negative width and height, the run is
the hook call, followed by the fallbacks if the hook declines. -/
theorem fd_resource_copy_region_hook (E : Gallium) (ctx : fd_context) (dst : pipe_resource)
    (dst_level dstx dsty dstz : Nat) (src : pipe_resource) (src_level : Nat)
    (src_box : pipe_box) (hook : pipe_blit_info → Bool) (hreg : ctx.blit = some hook)
    (hw : 0 ≤ src_box.width) (hh : 0 ≤ src_box.height) :
    fd_resource_copy_region E ctx dst dst_level dstx dsty dstz src src_level src_box =
      if hook (fd_resource_copy_region_info E dst dst_level dstx dsty dstz src src_level src_box)
      then
        { calls := [Call.blit (fd_resource_copy_region_info E dst dst_level dstx dsty dstz src
            src_level src_box)]
          failed := none }
      else
        { calls := Call.blit (fd_resource_copy_region_info E dst dst_level dstx dsty dstz src
            src_level src_box) ::
            fd_resource_copy_region_fallback ctx dst dst_level dstx dsty dstz src src_level src_box
          failed := none } := by
  have hw1 : (fd_resource_copy_region_info E dst dst_level dstx dsty dstz src src_level
      src_box).dst.box.width ≥ 0 := hw
  have hh1 : (fd_resource_copy_region_info E dst dst_level dstx dsty dstz src src_level
      src_box).dst.box.height ≥ 0 := hh
  simp only [fd_resource_copy_region, hreg]
  rw [if_neg (not_not.mpr hw1), if_neg (not_not.mpr hh1)]

/-- A run stops at an assertion exactly when a hook is registered and the
width or the height of the source box is negative. -/
theorem fd_resource_copy_region_failed_iff (E : Gallium) (ctx : fd_context)
    (dst : pipe_resource) (dst_level dstx dsty dstz : Nat) (src : pipe_resource)
    (src_level : Nat) (src_box : pipe_box) :
    (fd_resource_copy_region E ctx dst dst_level dstx dsty dstz src src_level src_box).failed
        ≠ none ↔
      ctx.blit.isSome = true ∧ (src_box.width < 0 ∨ src_box.height < 0) := by
  cases hb : ctx.blit with
  | none => simp [fd_resource_copy_region, hb]
  | some hook =>
    by_cases hw : 0 ≤ src_box.width
    · by_cases hh : 0 ≤ src_box.height
      · rw [fd_resource_copy_region_hook E ctx dst dst_level dstx dsty dstz src src_level
          src_box hook hb hw hh]
        split <;> simp <;> omega
      · have hw1 : (fd_resource_copy_region_info E dst dst_level dstx dsty dstz src src_level
            src_box).dst.box.width ≥ 0 := hw
        have hh1 : ¬ (fd_resource_copy_region_info E dst dst_level dstx dsty dstz src src_level
            src_box).dst.box.height ≥ 0 := hh
        simp only [fd_resource_copy_region, hb]
        rw [if_neg (not_not.mpr hw1), if_pos hh1]
        simp
        right; omega
    · have hw1 : ¬ (fd_resource_copy_region_info E dst dst_level dstx dsty dstz src src_level
          src_box).dst.box.width ≥ 0 := hw
      simp only [fd_resource_copy_region, hb]
      rw [if_pos hw1]
      simp
      left; omega

/-- The fallbacks never call the hardware hook. -/
theorem hook_requests_fallback (ctx : fd_context) (dst : pipe_resource)
    (dst_level dstx dsty dstz : Nat) (src : pipe_resource) (src_level : Nat)
    (src_box : pipe_box) :
    hook_requests (fd_resource_copy_region_fallback ctx dst dst_level dstx dsty dstz src
      src_level src_box) = [] := by
  unfold fd_resource_copy_region_fallback fd_blitter_pipe_copy_region
  by_cases hbuf : dst.target = PIPE_BUFFER ∨ src.target = PIPE_BUFFER
  · simp [hbuf, hook_requests]
  · cases hsup : util_blitter_is_copy_supported ctx.blitter dst src <;>
      simp [hbuf, hsup, hook_requests]

/-- C4: for every copy request whose source box has a non-negative width and
height, every context (hook registered or not) and every answer of the
collaborators, `fd_resource_copy_region` runs to its end: no assertion fails.
The two assertions on the width and height of the destination box are the
only points where a run can stop: for any source box, a run fails exactly
when a hook is registered and the width or the height is negative. -/
theorem fd_resource_copy_region_completes (E : Gallium) (ctx : fd_context)
    (dst : pipe_resource) (dst_level dstx dsty dstz : Nat) (src : pipe_resource)
    (src_level : Nat) (src_box : pipe_box)
    (hw : 0 ≤ src_box.width) (hh : 0 ≤ src_box.height) :
    (fd_resource_copy_region E ctx dst dst_level dstx dsty dstz src src_level src_box).failed =
      none ∧
    ∀ any_box : pipe_box,
      ((fd_resource_copy_region E ctx dst dst_level dstx dsty dstz src src_level
          any_box).failed ≠ none ↔
        ctx.blit.isSome = true ∧ (any_box.width < 0 ∨ any_box.height < 0)) := by
  refine ⟨?_, fun any_box => fd_resource_copy_region_failed_iff E ctx dst dst_level dstx dsty
    dstz src src_level any_box⟩
  by_contra hfail
  have h := (fd_resource_copy_region_failed_iff E ctx dst dst_level dstx dsty dstz src
    src_level src_box).mp hfail
  omega

/-- C4 (witness): the 64x64 copy, with a hook that declines. -/
theorem fd_resource_copy_region_completes_witness :
    (0 ≤ box64.width ∧ 0 ≤ box64.height) ∧
    (fd_resource_copy_region sample_gallium ctx_hook_declines tex64 0 0 0 0 tex128 0
      box64).failed = none :=
  ⟨by decide, (fd_resource_copy_region_completes sample_gallium ctx_hook_declines tex64 0 0 0 0
    tex128 0 box64 (by decide) (by decide)).1⟩

/-! ## The generic blit -/

/-- C5: in every run of `fd_blitter_blit` there is exactly one
`fd_blitter_pipe_begin`; its conditional-render flag is
`info->render_condition_enable`, its stage is FD_STAGE_BLIT, and its discard
flag is the conjunction of not `scissor_enable`, not `alpha_blend` and the
answer of `util_texrange_covers_whole_level` for the destination box.  So it
is true if and only if `scissor_enable` is false, `alpha_blend` is false and
the destination box, as the unsigned values handed to the helper, is exactly
the whole level: x = y = z = 0 and width, height, depth equal to the extent
(W, H, D) of the destination level; for a box of `int` fields and a level
extent below 2^31 these are the equalities of the box fields themselves, so
any smaller box gives false. -/
theorem fd_blitter_blit_discard (E : Gallium) (ctx : fd_context) (request : pipe_blit_info) :
    ∃ discard : Bool,
      stage_begins (fd_blitter_blit E ctx request).2 =
        [(request.render_condition_enable, discard, FD_STAGE_BLIT)] ∧
      discard = (!request.scissor_enable && !request.alpha_blend &&
        util_texrange_covers_whole_level E.level_extent request.dst.resource
          request.dst.level (to_unsigned request.dst.box.x) (to_unsigned request.dst.box.y)
          (to_unsigned request.dst.box.z) (to_unsigned request.dst.box.width)
          (to_unsigned request.dst.box.height) (to_unsigned request.dst.box.depth)) ∧
      (discard = true ↔
        request.scissor_enable = false ∧ request.alpha_blend = false ∧
        to_unsigned request.dst.box.x = 0 ∧
        to_unsigned request.dst.box.y = 0 ∧
        to_unsigned request.dst.box.z = 0 ∧
        to_unsigned request.dst.box.width =
          (E.level_extent request.dst.resource request.dst.level).1 ∧
        to_unsigned request.dst.box.height =
          (E.level_extent request.dst.resource request.dst.level).2.1 ∧
        to_unsigned request.dst.box.depth =
          (E.level_extent request.dst.resource request.dst.level).2.2) ∧
      (request.dst.box.fits_int →
        (E.level_extent request.dst.resource request.dst.level).1 < 2147483648 →
        (E.level_extent request.dst.resource request.dst.level).2.1 < 2147483648 →
        (E.level_extent request.dst.resource request.dst.level).2.2 < 2147483648 →
        (discard = true ↔
          request.scissor_enable = false ∧ request.alpha_blend = false ∧
          request.dst.box.x = 0 ∧ request.dst.box.y = 0 ∧ request.dst.box.z = 0 ∧
          request.dst.box.width =
            ((E.level_extent request.dst.resource request.dst.level).1 : Int) ∧
          request.dst.box.height =
            ((E.level_extent request.dst.resource request.dst.level).2.1 : Int) ∧
          request.dst.box.depth =
            ((E.level_extent request.dst.resource request.dst.level).2.2 : Int))) := by
  have hiff : ((if (!request.scissor_enable && !request.alpha_blend) = true then
        util_texrange_covers_whole_level E.level_extent request.dst.resource
          request.dst.level (to_unsigned request.dst.box.x) (to_unsigned request.dst.box.y)
          (to_unsigned request.dst.box.z) (to_unsigned request.dst.box.width)
          (to_unsigned request.dst.box.height) (to_unsigned request.dst.box.depth)
        else false) = true ↔
        request.scissor_enable = false ∧ request.alpha_blend = false ∧
        to_unsigned request.dst.box.x = 0 ∧
        to_unsigned request.dst.box.y = 0 ∧
        to_unsigned request.dst.box.z = 0 ∧
        to_unsigned request.dst.box.width =
          (E.level_extent request.dst.resource request.dst.level).1 ∧
        to_unsigned request.dst.box.height =
          (E.level_extent request.dst.resource request.dst.level).2.1 ∧
        to_unsigned request.dst.box.depth =
          (E.level_extent request.dst.resource request.dst.level).2.2) := by
    cases hs : request.scissor_enable <;> cases ha : request.alpha_blend <;>
      simp [util_texrange_covers_whole_level, and_assoc]
  refine ⟨_, rfl, ?_, hiff, ?_⟩
  · cases hs : request.scissor_enable <;> cases ha : request.alpha_blend <;> simp
  · intro hbox hW hH hD
    obtain ⟨hx, hy, hz, hw, hh, hd⟩ := hbox
    rw [hiff, to_unsigned_eq_iff _ 0 hx (by decide), to_unsigned_eq_iff _ 0 hy (by decide),
      to_unsigned_eq_iff _ 0 hz (by decide), to_unsigned_eq_iff _ _ hw hW,
      to_unsigned_eq_iff _ _ hh hH, to_unsigned_eq_iff _ _ hd hD]
    simp

/-- C6 (counterexample): the destination is a 2D texture whose format
B8G8R8A8_SRGB has the linear format B8G8R8A8_UNORM.  Whether the request
leaves its destination format at PIPE_FORMAT_NONE or repeats the format of
the resource, the template given to `create_surface` carries the format of
the request (0, respectively 2) and not the linear format 1; and likewise for
the template of the source given to `create_sampler_view`. -/
theorem fd_blitter_blit_format_not_linearized :
    tex64_srgb.target ≠ PIPE_BUFFER ∧
    tex64_srgb.format = 2 ∧ sample_gallium.util_format_linear tex64_srgb.format = 1 ∧
    (surface_templates (fd_blitter_blit sample_gallium ctx_no_hook
      (sample_request tex64_srgb box64 0 tex64_srgb box64 0)).2).map (fun p => p.2.format)
      = [0] ∧
    (surface_templates (fd_blitter_blit sample_gallium ctx_no_hook
      (sample_request tex64_srgb box64 2 tex64_srgb box64 2)).2).map (fun p => p.2.format)
      = [2] ∧
    (sampler_view_templates (fd_blitter_blit sample_gallium ctx_no_hook
      (sample_request tex64_srgb box64 0 tex64_srgb box64 0)).2).map (fun p => p.2.format)
      = [0] ∧
    (sampler_view_templates (fd_blitter_blit sample_gallium ctx_no_hook
      (sample_request tex64_srgb box64 2 tex64_srgb box64 2)).2).map (fun p => p.2.format)
      = [2] :=
  ⟨by decide, rfl, rfl, rfl, rfl, rfl, rfl⟩

/-- C6 (amended): `default_dst_texture` and `default_src_texture` give the
template of a resource that is not a buffer the format
`util_format_linear(resource->format)`, and `fd_blitter_blit` then always
replaces it by the format of the request: the one template given to
`create_surface` has the format `info->dst.format` and the one given to
`create_sampler_view` has `info->src.format`, for every request. -/
theorem fd_blitter_blit_formats (E : Gallium) (ctx : fd_context) (request : pipe_blit_info) :
    ∃ (t : pipe_surface) (v : pipe_sampler_view),
      surface_templates (fd_blitter_blit E ctx request).2 = [(request.dst.resource, t)] ∧
      sampler_view_templates (fd_blitter_blit E ctx request).2 = [(request.src.resource, v)] ∧
      t.format = request.dst.format ∧
      v.format = request.src.format ∧
      (request.dst.resource.target ≠ PIPE_BUFFER →
        (default_dst_texture E request.dst.resource request.dst.level
          (to_unsigned request.dst.box.z)).format =
          E.util_format_linear request.dst.resource.format) ∧
      (request.src.resource.target ≠ PIPE_BUFFER →
        (default_src_texture E request.src.resource request.src.level).format =
          E.util_format_linear request.src.resource.format) := by
  refine ⟨_, _, rfl, rfl, rfl, rfl, ?_, ?_⟩
  · intro h
    simp [default_dst_texture, h]
  · intro h
    simp [default_src_texture, h]

/-- C7 (counterexample): for the request that `fd_resource_copy_region`
builds for a copy between two buffers of 4096 bytes, whose format is R8_UNORM
(4), the templates given to `create_surface` and `create_sampler_view` have
the format 4 and not PIPE_FORMAT_R8_UINT (3); and for a source buffer whose
array size is 2 the last layer of the view is 1, not 0. -/
theorem fd_blitter_blit_buffer_not_r8_uint :
    buf4096.target = PIPE_BUFFER ∧ buf4096_two.target = PIPE_BUFFER ∧
    sample_gallium.PIPE_FORMAT_R8_UINT = 3 ∧
    (surface_templates (fd_blitter_blit sample_gallium ctx_no_hook
      (fd_resource_copy_region_info sample_gallium buf4096 0 0 0 0 buf4096 0 box4096)).2).map
      (fun p => p.2.format) = [4] ∧
    (sampler_view_templates (fd_blitter_blit sample_gallium ctx_no_hook
      (fd_resource_copy_region_info sample_gallium buf4096 0 0 0 0 buf4096 0 box4096)).2).map
      (fun p => p.2.format) = [4] ∧
    (sampler_view_templates (fd_blitter_blit sample_gallium ctx_no_hook
      (sample_request buf4096 box4096 3 buf4096_two box4096 3)).2).map
      (fun p => (p.2.first_layer, p.2.last_layer)) = [(0, 1)] :=
  ⟨rfl, rfl, rfl, rfl, rfl, rfl⟩

/-- C7 (amended): for a destination (respectively source) that is a
PIPE_BUFFER, `default_dst_texture` (`default_src_texture`) sets the format of
the template to PIPE_FORMAT_R8_UINT and `fd_blitter_blit` replaces it by the
request's `dst.format` (`src.format`) before `create_surface`
(`create_sampler_view`).  The surface template has the single level
`dst.level` and the single layer `dst.box.z`; the view template of a buffer
source has the target PIPE_TEXTURE_1D, first_level = last_level = `src.level`,
first_layer = 0 and last_layer = array_size - 1 as an unsigned value, which is
0 when the array size of the buffer is 1. -/
theorem fd_blitter_blit_buffer_views (E : Gallium) (ctx : fd_context)
    (request : pipe_blit_info) :
    (request.dst.resource.target = PIPE_BUFFER →
      (default_dst_texture E request.dst.resource request.dst.level
        (to_unsigned request.dst.box.z)).format = E.PIPE_FORMAT_R8_UINT ∧
      ∃ t : pipe_surface,
        surface_templates (fd_blitter_blit E ctx request).2 = [(request.dst.resource, t)] ∧
        t.format = request.dst.format ∧
        t.level = request.dst.level ∧
        t.first_layer = to_unsigned request.dst.box.z ∧
        t.last_layer = to_unsigned request.dst.box.z) ∧
    (request.src.resource.target = PIPE_BUFFER →
      (default_src_texture E request.src.resource request.src.level).format =
        E.PIPE_FORMAT_R8_UINT ∧
      ∃ v : pipe_sampler_view,
        sampler_view_templates (fd_blitter_blit E ctx request).2 =
          [(request.src.resource, v)] ∧
        v.format = request.src.format ∧
        v.target = PIPE_TEXTURE_1D ∧
        v.first_level = request.src.level ∧
        v.last_level = request.src.level ∧
        v.first_layer = 0 ∧
        v.last_layer = to_unsigned ((request.src.resource.array_size : Int) - 1) ∧
        (request.src.resource.array_size = 1 → v.last_layer = 0)) := by
  constructor
  · intro h
    refine ⟨by simp [default_dst_texture, h], _, rfl, rfl, rfl, rfl, rfl⟩
  · intro h
    refine ⟨by simp [default_src_texture, h], _, rfl, rfl, ?_, rfl, rfl, rfl, ?_, ?_⟩
    · simp [default_src_texture, h]
    · simp [default_src_texture, h]
    · intro h1
      simp [default_src_texture, h, h1, to_unsigned]

/-- C8: the target of the view template of `default_src_texture` is
PIPE_TEXTURE_1D for a buffer; PIPE_TEXTURE_2D_ARRAY for a cube or cube array
when `get_param(PIPE_CAP_SAMPLER_VIEW_TARGET)` is not zero; and the target of
the resource in every other case, so a cube stays a cube when the query
answers zero. -/
theorem default_src_texture_target (E : Gallium) (src : pipe_resource) (srclevel : Nat) :
    (src.target = PIPE_BUFFER →
      (default_src_texture E src srclevel).target = PIPE_TEXTURE_1D) ∧
    (src.target = PIPE_TEXTURE_CUBE ∨ src.target = PIPE_TEXTURE_CUBE_ARRAY →
      src.screen.get_param PIPE_CAP_SAMPLER_VIEW_TARGET ≠ 0 →
      (default_src_texture E src srclevel).target = PIPE_TEXTURE_2D_ARRAY) ∧
    (src.target ≠ PIPE_BUFFER →
      ¬ ((src.target = PIPE_TEXTURE_CUBE ∨ src.target = PIPE_TEXTURE_CUBE_ARRAY) ∧
          src.screen.get_param PIPE_CAP_SAMPLER_VIEW_TARGET ≠ 0) →
      (default_src_texture E src srclevel).target = src.target) := by
  refine ⟨?_, ?_, ?_⟩
  · intro h
    simp [default_src_texture, h]
  · intro h hcap
    rcases h with h | h <;> simp [default_src_texture, h, hcap]
  · intro hb hc
    simp only [default_src_texture, if_neg hb]
    by_cases hcap : src.screen.get_param PIPE_CAP_SAMPLER_VIEW_TARGET = 0
    · simp [hcap]
    · have hne : ¬ (src.target = PIPE_TEXTURE_CUBE ∨ src.target = PIPE_TEXTURE_CUBE_ARRAY) :=
        fun h => hc ⟨h, hcap⟩
      have h1 : src.target ≠ PIPE_TEXTURE_CUBE := fun h => hne (Or.inl h)
      have h2 : src.target ≠ PIPE_TEXTURE_CUBE_ARRAY := fun h => hne (Or.inr h)
      simp [h1, h2]

/-! ## The request of the copy and the layers of the source view -/

/-- A minified size is at least 1. -/
theorem u_minify_pos (value levels : Nat) : 1 ≤ u_minify value levels := by
  unfold u_minify
  exact le_max_left 1 _

/-- A minified size is at most the size, or 1. -/
theorem u_minify_le (value levels : Nat) : u_minify value levels ≤ max 1 value := by
  unfold u_minify
  have h : value >>> levels ≤ value := by
    rw [Nat.shiftRight_eq_div_pow]
    exact Nat.div_le_self _ _
  exact max_le_max (le_refl 1) h

/-- Subtracting 1 from a positive unsigned value does not wrap. -/
theorem to_unsigned_pred (n : Nat) (h1 : 1 ≤ n) (h2 : n ≤ 4294967296) :
    to_unsigned ((n : Int) - 1) = n - 1 := by
  have h := to_unsigned_of_nonneg ((n : Int) - 1) (by omega) (by omega)
  omega

/-- C9: whenever a hardware blit hook is registered, the requests passed to
it in a run of `fd_resource_copy_region` are a single request `r` (none when
an assertion stops the run, that is when the width or height of the source
box is negative), and `r` has dst.resource = dst, dst.level = dst_level, the
dst.box offset (dstx, dsty, dstz) (converted to the signed type of the box,
which keeps every value below 2^31), the width and height of the source box,
dst.box.depth = 1, dst.format = dst->format, src.resource = src, src.level =
src_level, src.box the caller's box, src.format = src->format, mask =
util_format_get_mask(src->format), filter = PIPE_TEX_FILTER_NEAREST,
scissor_enable = false, and alpha_blend, render_condition_enable and the
scissor rectangle zero. -/
theorem fd_resource_copy_region_request (E : Gallium) (ctx : fd_context)
    (dst : pipe_resource) (dst_level dstx dsty dstz : Nat) (src : pipe_resource)
    (src_level : Nat) (src_box : pipe_box) (hook : pipe_blit_info → Bool)
    (hreg : ctx.blit = some hook) :
    ∃ r : pipe_blit_info,
      hook_requests (fd_resource_copy_region E ctx dst dst_level dstx dsty dstz src src_level
        src_box).calls = (if 0 ≤ src_box.width ∧ 0 ≤ src_box.height then [r] else []) ∧
      r.dst.resource = dst ∧ r.dst.level = dst_level ∧
      r.dst.box.x = to_int dstx ∧ r.dst.box.y = to_int dsty ∧ r.dst.box.z = to_int dstz ∧
      (dstx < 2147483648 → r.dst.box.x = (dstx : Int)) ∧
      (dsty < 2147483648 → r.dst.box.y = (dsty : Int)) ∧
      (dstz < 2147483648 → r.dst.box.z = (dstz : Int)) ∧
      r.dst.box.width = src_box.width ∧ r.dst.box.height = src_box.height ∧
      r.dst.box.depth = 1 ∧
      r.dst.format = dst.format ∧
      r.src.resource = src ∧ r.src.level = src_level ∧ r.src.box = src_box ∧
      r.src.format = src.format ∧
      r.mask = E.util_format_get_mask src.format ∧
      r.filter = PIPE_TEX_FILTER_NEAREST ∧
      r.scissor_enable = false ∧
      r.alpha_blend = false ∧ r.render_condition_enable = false ∧
      r.scissor = { minx := 0, miny := 0, maxx := 0, maxy := 0 } := by
  refine ⟨fd_resource_copy_region_info E dst dst_level dstx dsty dstz src src_level src_box,
    ?_, rfl, rfl, rfl, rfl, rfl, ?_, ?_, ?_, rfl, rfl, rfl, rfl, rfl, rfl, rfl, rfl, rfl, rfl,
    rfl, rfl, rfl, rfl⟩
  · by_cases hw : 0 ≤ src_box.width
    · by_cases hh : 0 ≤ src_box.height
      · have hc : 0 ≤ src_box.width ∧ 0 ≤ src_box.height := ⟨hw, hh⟩
        have hfb := hook_requests_fallback ctx dst dst_level dstx dsty dstz src src_level src_box
        rw [fd_resource_copy_region_hook E ctx dst dst_level dstx dsty dstz src src_level
          src_box hook hreg hw hh, if_pos hc]
        cases hk : hook (fd_resource_copy_region_info E dst dst_level dstx dsty dstz src
            src_level src_box)
        · have hcons : ∀ (r : pipe_blit_info) (l : List Call),
              hook_requests (Call.blit r :: l) = r :: hook_requests l := fun _ _ => rfl
          simp only [Bool.false_eq_true, if_false]
          rw [hcons, hfb]
        · rfl
      · have hw1 : (fd_resource_copy_region_info E dst dst_level dstx dsty dstz src src_level
            src_box).dst.box.width ≥ 0 := hw
        have hh1 : ¬ (fd_resource_copy_region_info E dst dst_level dstx dsty dstz src src_level
            src_box).dst.box.height ≥ 0 := hh
        simp only [fd_resource_copy_region, hreg]
        rw [if_neg (not_not.mpr hw1), if_pos hh1, if_neg (fun h => hh h.2)]
        rfl
    · have hw1 : ¬ (fd_resource_copy_region_info E dst dst_level dstx dsty dstz src src_level
          src_box).dst.box.width ≥ 0 := hw
      simp only [fd_resource_copy_region, hreg]
      rw [if_pos hw1, if_neg (fun h => hw h.1)]
      rfl
  · intro h
    exact to_int_of_lt dstx h
  · intro h
    exact to_int_of_lt dsty h
  · intro h
    exact to_int_of_lt dstz h

/-- C9 (witness): the 64x64 copy with a hook that accepts. -/
theorem fd_resource_copy_region_request_witness :
    ∃ r : pipe_blit_info,
      hook_requests (fd_resource_copy_region sample_gallium ctx_hook_accepts tex64 0 0 0 0
        tex128 0 box64).calls = (if 0 ≤ box64.width ∧ 0 ≤ box64.height then [r] else []) ∧
      r.dst.resource = tex64 ∧ r.dst.level = 0 ∧
      r.dst.box.x = to_int 0 ∧ r.dst.box.y = to_int 0 ∧ r.dst.box.z = to_int 0 ∧
      (0 < 2147483648 → r.dst.box.x = ((0 : Nat) : Int)) ∧
      (0 < 2147483648 → r.dst.box.y = ((0 : Nat) : Int)) ∧
      (0 < 2147483648 → r.dst.box.z = ((0 : Nat) : Int)) ∧
      r.dst.box.width = box64.width ∧ r.dst.box.height = box64.height ∧
      r.dst.box.depth = 1 ∧
      r.dst.format = tex64.format ∧
      r.src.resource = tex128 ∧ r.src.level = 0 ∧ r.src.box = box64 ∧
      r.src.format = tex128.format ∧
      r.mask = sample_gallium.util_format_get_mask tex128.format ∧
      r.filter = PIPE_TEX_FILTER_NEAREST ∧
      r.scissor_enable = false ∧
      r.alpha_blend = false ∧ r.render_condition_enable = false ∧
      r.scissor = { minx := 0, miny := 0, maxx := 0, maxy := 0 } :=
  fd_resource_copy_region_request sample_gallium ctx_hook_accepts tex64 0 0 0 0 tex128 0 box64
    (fun _ => true) rfl

/-- C10: for every source resource (whose depth0 and array_size are unsigned
32-bit values) and every level, the view template of `default_src_texture`
has first_level = last_level = srclevel and first_layer = 0; for a
PIPE_TEXTURE_3D its last_layer is max(1, depth0 >> srclevel) - 1, which does
not wrap, so first_layer <= last_layer; for any other target its last_layer
is array_size - 1 computed as an unsigned 32-bit value, which is array_size -
1 without wrap, and so first_layer <= last_layer, whenever array_size >= 1
(and 2^32 - 1 when array_size is 0). -/
theorem default_src_texture_layers (E : Gallium) (src : pipe_resource) (srclevel : Nat)
    (hd : src.depth0 < 4294967296) (ha : src.array_size < 4294967296) :
    (default_src_texture E src srclevel).first_level = srclevel ∧
    (default_src_texture E src srclevel).last_level = srclevel ∧
    (default_src_texture E src srclevel).first_layer = 0 ∧
    (src.target = PIPE_TEXTURE_3D →
      (default_src_texture E src srclevel).last_layer = max 1 (src.depth0 >>> srclevel) - 1 ∧
      (default_src_texture E src srclevel).last_layer + 1 = max 1 (src.depth0 >>> srclevel) ∧
      (default_src_texture E src srclevel).first_layer ≤
        (default_src_texture E src srclevel).last_layer) ∧
    (src.target ≠ PIPE_TEXTURE_3D →
      (default_src_texture E src srclevel).last_layer =
        to_unsigned ((src.array_size : Int) - 1) ∧
      (1 ≤ src.array_size →
        (default_src_texture E src srclevel).last_layer + 1 = src.array_size ∧
        (default_src_texture E src srclevel).first_layer ≤
          (default_src_texture E src srclevel).last_layer) ∧
      (src.array_size = 0 →
        (default_src_texture E src srclevel).last_layer = 4294967295)) := by
  refine ⟨rfl, rfl, rfl, ?_, ?_⟩
  · intro h3
    have hpos := u_minify_pos src.depth0 srclevel
    have hle := u_minify_le src.depth0 srclevel
    have hmax : max 1 src.depth0 ≤ 4294967296 := max_le (by omega) (by omega)
    have hl : (default_src_texture E src srclevel).last_layer =
        u_minify src.depth0 srclevel - 1 := by
      simp only [default_src_texture, if_pos h3]
      exact to_unsigned_pred _ hpos (le_trans hle hmax)
    have hfirst : (default_src_texture E src srclevel).first_layer = 0 := rfl
    rw [hl, hfirst]
    unfold u_minify at hpos ⊢
    omega
  · intro h3
    have hl : (default_src_texture E src srclevel).last_layer =
        to_unsigned ((src.array_size : Int) - 1) := by
      simp only [default_src_texture, if_neg h3]
    have hfirst : (default_src_texture E src srclevel).first_layer = 0 := rfl
    refine ⟨hl, ?_, ?_⟩
    · intro h1
      rw [hl, hfirst, to_unsigned_pred _ h1 (by omega)]
      omega
    · intro h0
      rw [hl, h0]
      rfl

/-- C10 (witness): level 2 of the 16x16x16 texture, whose last layer is 3. -/
theorem default_src_texture_layers_witness :
    (default_src_texture sample_gallium tex3d 2).last_layer = max 1 (tex3d.depth0 >>> 2) - 1 ∧
    (default_src_texture sample_gallium tex3d 2).last_layer = 3 :=
  ⟨((default_src_texture_layers sample_gallium tex3d 2 (by decide) (by decide)).2.2.2.1
    rfl).1, rfl⟩

end FdBlitter
